import Mathlib

/-!
Shallow embedding of the core of `box-print-web` (`src/renderer.py`) and
verification of its specified properties.

Modelling conventions:
  * Python strings are Lean `String`s (lists of characters); the ASCII
    fragment of `str.lower` / `str.upper` is modelled explicitly.
  * Python dicts are association lists (`List (key × value)`); `d.get(k)`
    is `List.lookup k d`, `d.get(k, v)` is `(List.lookup k d).getD v`, and
    Python truthiness of an optional dict (`if cfg:`) is `pyDictGate`.
  * The filesystem is passed in explicitly: a directory listing is a
    `List String` of filenames, `os.path.isdir` / `os.path.exists` are
    boolean parameters.
  * Functions that raise exceptions return `Except String α`, carrying the
    exception message.
  * The reportlab canvas is modelled by its trace of draw calls
    (`List DrawOp`); external PDF parsing/merging (`pypdf`) is outside the
    embedding, so `render_row` records the files it creates instead.
  * JSON numbers (coordinates) are modelled as rationals.
-/

/-- The six whitespace characters matched by Python's `\s` on ASCII input
(space, tab, newline, carriage return, vertical tab, form feed),
identified by code point. -/
def isPySpace (c : Char) : Bool :=
  c.toNat == 32 || c.toNat == 9 || c.toNat == 10 || c.toNat == 13 ||
  c.toNat == 11 || c.toNat == 12

/-- ASCII fragment of Python `str.lower` on a single character. -/
def pyLowerChar (c : Char) : Char :=
  if 65 ≤ c.toNat ∧ c.toNat ≤ 90 then Char.ofNat (c.toNat + 32) else c

/-- ASCII fragment of Python `str.upper` on a single character. -/
def pyUpperChar (c : Char) : Char :=
  if 97 ≤ c.toNat ∧ c.toNat ≤ 122 then Char.ofNat (c.toNat - 32) else c

/-- `re.sub(r"\s+", "", s)`: delete every whitespace character. -/
def removeWs (cs : List Char) : List Char :=
  cs.filter (fun c => !isPySpace c)

/-- Python `str.strip()`: drop leading and trailing whitespace. -/
def stripChars (cs : List Char) : List Char :=
  ((cs.dropWhile isPySpace).reverse.dropWhile isPySpace).reverse

/-- Character-list core of `norm` (renderer.py line 27-28):
whitespace removal, then `strip` (a no-op after removal, kept for
faithfulness), then lower-casing. -/
def normChars (cs : List Char) : List Char :=
  (stripChars (removeWs cs)).map pyLowerChar

/-- `norm(s)` from renderer.py: `re.sub(r"\s+", "", str(s or "")).strip().lower()`. -/
def norm (s : String) : String :=
  String.mk (normChars s.data)

/-- `str(s or "")` for an optional string argument: `None` becomes `""`,
a string is returned unchanged (`"" or ""` is `""`). -/
def pyOrEmpty : Option String → String
  | none => ""
  | some s => s

/-- `norm` applied to a possibly-`None` argument, as the Python function
accepts (`str(s or "")`). -/
def normPy (o : Option String) : String :=
  norm (pyOrEmpty o)

/-- Python `str.strip()` on a `String`. -/
def pyStrip (s : String) : String :=
  String.mk (stripChars s.data)

/-- Python `str.lower()` on a `String` (ASCII fragment). -/
def pyLowerStr (s : String) : String :=
  String.mk (s.data.map pyLowerChar)

/-- `re.sub(r"\s+", "", str(country or "")).strip().upper()` from
`get_icon_path` (renderer.py line 69). -/
def pyUpperStrNoWs (s : String) : String :=
  String.mk ((stripChars (removeWs s.data)).map pyUpperChar)

/-- `os.path.basename`: the part of the path after the last separator. -/
def basename (p : String) : String :=
  String.mk ((p.data.reverse.takeWhile (fun c => !(c == '/'))).reverse)

/-- The stem part of `os.path.splitext`: everything before the final dot,
unless every character before that dot is itself a dot (CPython's
`genericpath._splitext` rule, so `".bashrc"` keeps its dot). -/
def splitextStem (fn : String) : String :=
  let rev := fn.data.reverse
  let extRev := rev.takeWhile (fun c => !(c == '.'))
  if extRev.length = rev.length then fn
  else
    let pre := (rev.drop (extRev.length + 1)).reverse
    if pre.all (fun c => c == '.') then fn else String.mk pre

/-- Python `s.endswith(t)`. -/
def strEndsWith (s pat : String) : Bool :=
  List.isSuffixOf pat.data s.data

/- ======================= Coordinate registry ======================= -/

/-- A Python dict with string keys, as loaded from JSON. -/
abbrev PyDict (α : Type) : Type := List (String × α)

/-- Python truthiness test on an optional dict: `None` and the empty dict
are falsy, a non-empty dict is truthy.  Models `cfg = d.get(k)` followed by
`if cfg:`. -/
def pyDictGate {α : Type} : Option (PyDict α) → Option (PyDict α)
  | some d => if d.isEmpty then none else some d
  | none => none

/-- The `KeyError` message raised by `get_cfg_for_template`
(renderer.py line 101). -/
def layoutNotFoundMsg (brand template_key : String) : String :=
  "좌표 없음: brand=" ++ brand ++ ", template_key=" ++ template_key ++
  " (coords.json에 등록 필요)"

/-- The normalized template key computed from a template path
(renderer.py lines 90-91): `norm` of the filename stem. -/
def templateKeyOf (template_pdf_path : String) : String :=
  norm (splitextStem (basename template_pdf_path))

/-- `get_cfg_for_template` (renderer.py lines 89-101): the
template-specific layout if present and truthy, else the brand default if
present and truthy, else a `KeyError` naming brand and key.  The layout
dict's values are never inspected, so their type is a parameter. -/
def get_cfg_for_template {α : Type} (defaults : PyDict (PyDict α))
    (template_coords : List ((String × String) × PyDict α))
    (brand : String) (template_pdf_path : String) : Except String (PyDict α) :=
  let template_key := templateKeyOf template_pdf_path
  match pyDictGate (List.lookup (brand, template_key) template_coords) with
  | some cfg => Except.ok cfg
  | none =>
    match pyDictGate (List.lookup brand defaults) with
    | some d => Except.ok d
    | none => Except.error (layoutNotFoundMsg brand template_key)

/- ======================= Template resolver ======================= -/

/-- `fn.lower().endswith(".pdf")` (renderer.py line 81). -/
def isPdfName (fn : String) : Bool :=
  strEndsWith (pyLowerStr fn) ".pdf"

/-- The normalized target key `norm(f"{box_type}_{box_group}")`
(renderer.py line 78). -/
def templateTarget (box_type box_group : String) : String :=
  norm (box_type ++ "_" ++ box_group)

/-- One iteration of the scan loop of `find_template_pdf`
(renderer.py lines 80-85): non-PDF files are skipped, a PDF file matches
when its normalized stem equals the target key. -/
def isTemplateMatch (box_type box_group fn : String) : Bool :=
  isPdfName fn && (norm (splitextStem fn) == templateTarget box_type box_group)

/-- `find_template_pdf` (renderer.py lines 73-87).  The brand directory's
existence and its listing are explicit inputs; the first matching entry of
the listing wins, as in the Python loop over `os.listdir`. -/
def find_template_pdf (brandDirExists : Bool) (listing : List String)
    (template_root brand box_type box_group : String) : Except String String :=
  if !brandDirExists then
    Except.error ("템플릿 브랜드 폴더 없음: " ++ template_root ++ "/" ++ brand)
  else
    match listing.find? (isTemplateMatch box_type box_group) with
    | some fn => Except.ok (template_root ++ "/" ++ brand ++ "/" ++ fn)
    | none =>
      Except.error ("템플릿 없음: " ++ brand ++ "/" ++ box_type ++ "_" ++
        box_group ++ ".pdf")

/- ======================= Overlay renderer ======================= -/

/-- A layout (`cfg`) as consumed by `make_overlay_pdf`
(renderer.py lines 121-132): the fields read out of the JSON dict, with
dict-valued fields as association lists and coordinates as rationals. -/
structure Cfg where
  cover_rects : List (ℚ × ℚ × ℚ × ℚ)
  pos : List (String × (ℚ × ℚ))
  icon_pos : List (String × (ℚ × ℚ × ℚ × ℚ))
  rotate_180 : List (String × Bool)
  icon_rotate_180 : List (String × Bool)
  hide : List (String × Bool)
  icon_hide : List (String × Bool)
  font_main_size : Int
  font_sub_size : Int

/-- An input row with the seven required columns, each a string
(the Python code applies `str(...)` on access). -/
structure Row where
  brand : String
  box_type : String
  box_group : String
  item_code : String
  product_name_ko : String
  product_name_en : String
  origin_country : String

/-- One draw call issued on the reportlab canvas.  A rotated text draw
(`draw_text_rotated_180`) and a plain `drawString` are both `text` ops,
distinguished by the final flag; likewise for images. -/
inductive DrawOp where
  | cover : ℚ → ℚ → ℚ → ℚ → DrawOp
  | text : ℚ → ℚ → String → Int → Bool → DrawOp
  | image : String → ℚ → ℚ → ℚ → ℚ → Bool → DrawOp
deriving DecidableEq

/-- `is_zero_xy` (renderer.py lines 103-107) on a well-typed point. -/
def is_zero_xy (xy : ℚ × ℚ) : Bool :=
  xy.1 == 0 && xy.2 == 0

/-- `is_zero_rect` (renderer.py lines 109-113) on a well-typed rectangle. -/
def is_zero_rect (r : ℚ × ℚ × ℚ × ℚ) : Bool :=
  r.1 == 0 && r.2.1 == 0 && r.2.2.1 == 0 && r.2.2.2 == 0

/-- `get_icon_path` (renderer.py lines 68-70). -/
def get_icon_path (country : String) (icon_dir : String) : String :=
  icon_dir ++ "/icon_" ++ pyUpperStrNoWs country ++ ".png"

/-- The cover pass body (renderer.py lines 137-141): a white rectangle,
unless the rectangle is all-zero. -/
def coverDrawOp (r : ℚ × ℚ × ℚ × ℚ) : Option DrawOp :=
  if is_zero_rect r then none
  else some (DrawOp.cover r.1 r.2.1 r.2.2.1 r.2.2.2)

/-- The text-pass loop body (renderer.py lines 152-163 and 178-189):
skip when the key is absent from `pos`, hidden, or at the zero point;
otherwise draw `val`, rotated when `rotate_180` holds for the key. -/
def textDrawOp (cfg : Cfg) (size : Int) (key val : String) : Option DrawOp :=
  match List.lookup key cfg.pos with
  | none => none
  | some xy =>
    if (List.lookup key cfg.hide).getD false then none
    else if is_zero_xy xy then none
    else some (DrawOp.text xy.1 xy.2 val size
      ((List.lookup key cfg.rotate_180).getD false))

/-- The icon-image loop body (renderer.py lines 196-207): skip when the
key is absent from `icon_pos`, icon-hidden, or at the zero rectangle;
otherwise draw the icon image scaled to the rectangle. -/
def iconImageOp (cfg : Cfg) (ip : String) (key : String) : Option DrawOp :=
  match List.lookup key cfg.icon_pos with
  | none => none
  | some r =>
    if (List.lookup key cfg.icon_hide).getD false then none
    else if is_zero_rect r then none
    else some (DrawOp.image ip r.1 r.2.1 r.2.2.1 r.2.2.2
      ((List.lookup key cfg.icon_rotate_180).getD false))

/-- The icon-fallback loop body (renderer.py lines 212-223): under the
same skip rules, draw the fallback message at font size 10, at
`(x, y + h + 2)` — just above the configured rectangle. -/
def iconTextOp (cfg : Cfg) (msg : String) (key : String) : Option DrawOp :=
  match List.lookup key cfg.icon_pos with
  | none => none
  | some r =>
    if (List.lookup key cfg.icon_hide).getD false then none
    else if is_zero_rect r then none
    else some (DrawOp.text r.1 (r.2.1 + r.2.2.2 + 2) msg 10
      ((List.lookup key cfg.icon_rotate_180).getD false))

/-- The fixed primary (SKU) vocabulary with its values
(renderer.py line 152). -/
def mainTextPairs (sku : String) : List (String × String) :=
  [("L_item_code", sku), ("L1_item_code", sku), ("L2_item_code", sku),
   ("L3_item_code", sku), ("R_item_code", sku)]

/-- The fixed secondary (name) vocabulary with its values
(renderer.py lines 167-178). -/
def subTextPairs (name_ko name_en : String) : List (String × String) :=
  [("L_name_ko", name_ko), ("L_name_en", name_en),
   ("R_name_ko", name_ko), ("R_name_en", name_en),
   ("L1_name_ko", name_ko), ("L1_name_en", name_en),
   ("L2_name_ko", name_ko), ("L2_name_en", name_en),
   ("L3_name_ko", name_ko), ("L3_name_en", name_en)]

/-- The icon key vocabulary (renderer.py lines 196 and 212). -/
def originKeys : List String :=
  ["L_origin", "R_origin", "origin"]

/-- `make_overlay_pdf` (renderer.py lines 118-225) as the sequence of draw
calls it issues: cover pass, SKU pass at `font_main_size`, name pass at
`font_sub_size`, then either icon images (when the icon file exists) or
`MADE IN {origin}` fallback text.  `iconExists` models `os.path.exists`. -/
def make_overlay_pdf (cfg : Cfg) (row : Row) (iconExists : String → Bool)
    (icon_dir : String) : List DrawOp :=
  let covers := cfg.cover_rects.filterMap coverDrawOp
  let mains := (mainTextPairs row.item_code).filterMap
    (fun kv => textDrawOp cfg cfg.font_main_size kv.1 kv.2)
  let subs := (subTextPairs row.product_name_ko row.product_name_en).filterMap
    (fun kv => textDrawOp cfg cfg.font_sub_size kv.1 kv.2)
  let origin := pyStrip row.origin_country
  let ip := get_icon_path origin icon_dir
  let originOps :=
    if iconExists ip then originKeys.filterMap (iconImageOp cfg ip)
    else originKeys.filterMap (iconTextOp cfg ("MADE IN " ++ origin))
  covers ++ mains ++ subs ++ originOps

/-- `true` exactly for cover-rectangle draws. -/
def isCoverOp : DrawOp → Bool
  | DrawOp.cover _ _ _ _ => true
  | _ => false

/-- `true` exactly for image draws. -/
def isImageOp : DrawOp → Bool
  | DrawOp.image _ _ _ _ _ _ => true
  | _ => false

/-- The string drawn by a text op, if any. -/
def textContent : DrawOp → Option String
  | DrawOp.text _ _ s _ _ => some s
  | _ => none

/- ======================= Document composer ======================= -/

/-- Result of a successful `render_row`: the returned output path together
with the files left on disk (the intermediate overlay is deleted after the
merge, so only the output file remains). -/
structure RowOut where
  out_path : String
  files : List String

/-- `render_row` (renderer.py lines 230-269).  Strips brand/box fields,
resolves the template and the layout — each failure propagating before any
file is opened or written — then composes the output.  The external PDF
read/merge (`pypdf`) is outside the embedding; the model records the files
the call creates. -/
def render_row {α : Type} (brandDirExists : String → Bool)
    (listing : String → List String) (defaults : PyDict (PyDict α))
    (template_coords : List ((String × String) × PyDict α)) (row : Row)
    (template_root out_dir : String) : Except String RowOut :=
  let brand := pyStrip row.brand
  let box_type := pyStrip row.box_type
  let box_group := pyStrip row.box_group
  match find_template_pdf (brandDirExists brand) (listing brand)
      template_root brand box_type box_group with
  | Except.error e => Except.error e
  | Except.ok template_pdf =>
    match get_cfg_for_template defaults template_coords brand template_pdf with
    | Except.error e => Except.error e
    | Except.ok _cfg =>
      let sku := row.item_code
      let out_path := out_dir ++ "/" ++ brand ++ "_" ++ box_type ++ "_" ++
        box_group ++ "_" ++ sku ++ ".pdf"
      Except.ok ⟨out_path, [out_path]⟩

/-- Files created on disk by a `render_row` call: an exception from
template or layout resolution is raised before anything is written. -/
def filesCreated : Except String RowOut → List String
  | Except.ok r => r.files
  | Except.error _ => []

/- ======================= Batch entry point ======================= -/

/-- An input dataset: the spreadsheet's column names and its rows in
source order. -/
structure DataFrame where
  columns : List String
  rows : List Row

/-- The required columns (renderer.py line 299). -/
def requiredCols : List String :=
  ["brand", "box_type", "box_group", "item_code", "product_name_ko",
   "product_name_en", "origin_country"]

/-- The row loop of `run_render` (renderer.py lines 304-319): render each
row, appending its output path; after each success, stop when `limit` is
non-zero and the count has reached it; a row failure aborts the whole
loop. -/
def renderLoop (f : Row → Except String String) (limit : Nat) :
    List Row → Nat → Except String (List String)
  | [], _ => Except.ok []
  | r :: rs, count =>
    match f r with
    | Except.error e => Except.error e
    | Except.ok p =>
      if limit ≠ 0 ∧ count + 1 ≥ limit then Except.ok [p]
      else
        match renderLoop f limit rs (count + 1) with
        | Except.error e => Except.error e
        | Except.ok l => Except.ok (p :: l)

/-- `run_render` (renderer.py lines 274-321), from the point where the
dataset has been read: the required-column check (a `KeyError` listing the
missing columns, raised before any row is rendered), then the row loop.
Font registration and coordinate loading, which precede this and have
their own failure modes, are modelled as already done via the `defaults`
and `template_coords` arguments. -/
def run_render {α : Type} (brandDirExists : String → Bool)
    (listing : String → List String) (defaults : PyDict (PyDict α))
    (template_coords : List ((String × String) × PyDict α)) (df : DataFrame)
    (limit : Nat) (template_root out_dir : String) : Except String (List String) :=
  let missing := requiredCols.filter (fun c => !df.columns.contains c)
  if missing ≠ [] then
    Except.error ("엑셀에 필수 컬럼이 없음: " ++ String.intercalate ", " missing)
  else
    renderLoop
      (fun r => Except.map RowOut.out_path
        (render_row brandDirExists listing defaults template_coords r
          template_root out_dir))
      limit df.rows 0

/-- Sequential rendering of a whole row list: first failure aborts,
otherwise the outputs in source order.  Reference semantics against which
the counted loop is checked. -/
def mapME (f : Row → Except String String) : List Row → Except String (List String)
  | [] => Except.ok []
  | r :: rs =>
    match f r with
    | Except.error e => Except.error e
    | Except.ok p =>
      match mapME f rs with
      | Except.error e => Except.error e
      | Except.ok l => Except.ok (p :: l)

/- ======================= Normalizer lemmas ======================= -/

theorem toNat_ofNat_lower (m : Nat) (h1 : 97 ≤ m) (h2 : m ≤ 122) :
    (Char.ofNat m).toNat = m := by
  interval_cases m <;> decide

theorem toNat_pyLowerChar_of_upper (c : Char) (h1 : 65 ≤ c.toNat)
    (h2 : c.toNat ≤ 90) : (pyLowerChar c).toNat = c.toNat + 32 := by
  unfold pyLowerChar
  rw [if_pos ⟨h1, h2⟩]
  exact toNat_ofNat_lower (c.toNat + 32) (by omega) (by omega)

theorem pyLowerChar_idem (c : Char) :
    pyLowerChar (pyLowerChar c) = pyLowerChar c := by
  by_cases h : 65 ≤ c.toNat ∧ c.toNat ≤ 90
  · have ht := toNat_pyLowerChar_of_upper c h.1 h.2
    have hfalse : ¬(65 ≤ (pyLowerChar c).toNat ∧ (pyLowerChar c).toNat ≤ 90) := by
      rw [ht]; omega
    show (if 65 ≤ (pyLowerChar c).toNat ∧ (pyLowerChar c).toNat ≤ 90 then
        Char.ofNat ((pyLowerChar c).toNat + 32) else pyLowerChar c) = pyLowerChar c
    rw [if_neg hfalse]
  · have hc : pyLowerChar c = c := if_neg h
    rw [hc]
    exact hc

theorem isPySpace_pyLowerChar (c : Char) :
    isPySpace (pyLowerChar c) = isPySpace c := by
  by_cases h : 65 ≤ c.toNat ∧ c.toNat ≤ 90
  · have ht := toNat_pyLowerChar_of_upper c h.1 h.2
    have h1 : isPySpace (pyLowerChar c) = false := by
      unfold isPySpace
      rw [ht]
      simp only [Bool.or_eq_false_iff, beq_eq_false_iff_ne]
      omega
    have h2 : isPySpace c = false := by
      unfold isPySpace
      simp only [Bool.or_eq_false_iff, beq_eq_false_iff_ne]
      omega
    rw [h1, h2]
  · have hc : pyLowerChar c = c := if_neg h
    rw [hc]

theorem dropWhile_eq_self_of_none {p : Char → Bool} {l : List Char}
    (h : ∀ c ∈ l, p c = false) : l.dropWhile p = l := by
  cases l with
  | nil => rfl
  | cons a as =>
    rw [List.dropWhile_cons, if_neg]
    simp [h a (List.mem_cons_self a as)]

theorem stripChars_eq_self {l : List Char}
    (h : ∀ c ∈ l, isPySpace c = false) : stripChars l = l := by
  unfold stripChars
  rw [dropWhile_eq_self_of_none h,
      dropWhile_eq_self_of_none (fun c hc => h c (List.mem_reverse.mp hc)),
      List.reverse_reverse]

theorem mem_of_mem_stripChars {l : List Char} {c : Char}
    (h : c ∈ stripChars l) : c ∈ l := by
  unfold stripChars at h
  rw [List.mem_reverse] at h
  have h2 := (List.dropWhile_sublist isPySpace).mem h
  rw [List.mem_reverse] at h2
  exact (List.dropWhile_sublist isPySpace).mem h2

theorem mem_removeWs_not_space {l : List Char} {c : Char}
    (h : c ∈ removeWs l) : isPySpace c = false := by
  unfold removeWs at h
  have := (List.mem_filter.mp h).2
  simpa using this

theorem normChars_no_space {l : List Char} {c : Char}
    (h : c ∈ normChars l) : isPySpace c = false := by
  unfold normChars at h
  rcases List.mem_map.mp h with ⟨d, hd, rfl⟩
  rw [isPySpace_pyLowerChar]
  exact mem_removeWs_not_space (mem_of_mem_stripChars hd)

theorem normChars_idem (l : List Char) :
    normChars (normChars l) = normChars l := by
  have h1 : removeWs (normChars l) = normChars l :=
    List.filter_eq_self.mpr (fun c hc => by simp [normChars_no_space hc])
  show (stripChars (removeWs (normChars l))).map pyLowerChar = normChars l
  rw [h1, stripChars_eq_self (fun c hc => normChars_no_space hc)]
  show (normChars l).map pyLowerChar = normChars l
  unfold normChars
  rw [List.map_map]
  exact List.map_congr_left (fun c _ => pyLowerChar_idem c)

/- ======================= C7 ======================= -/

/-- C7: the key normalizer `norm` is idempotent
(`norm (norm s) = norm s` for every string), total — its embedding is a
total function, and the Python `str(s or "")` guard maps `None` to the
empty string — and maps empty or whitespace-only input to the empty
string. -/
theorem c7_norm_idempotent_total :
    (∀ s : String, norm (norm s) = norm s)
  ∧ normPy none = ""
  ∧ (∀ o : Option String, normPy o = norm (pyOrEmpty o))
  ∧ (∀ s : String, (∀ c ∈ s.data, isPySpace c = true) → norm s = "")
  ∧ norm "" = "" := by
  refine ⟨fun s => ?_, rfl, fun o => rfl, fun s h => ?_, rfl⟩
  · exact congrArg String.mk (normChars_idem s.data)
  · have h0 : removeWs s.data = [] :=
      List.filter_eq_nil_iff.mpr (fun c hc => by simp [h c hc])
    show String.mk (normChars s.data) = ""
    unfold normChars
    rw [h0]
    rfl

/-- C7 witness: idempotence at a concrete string, and a whitespace-only
string normalizing to the empty string. -/
theorem c7_norm_witness :
    norm (norm " Basic_M ") = norm " Basic_M " ∧ norm " \t\n " = "" :=
  ⟨c7_norm_idempotent_total.1 " Basic_M ",
   c7_norm_idempotent_total.2.2.2.1 " \t\n " (by decide)⟩

/- ======================= C1 / C10 ======================= -/

/-- C1: layout resolution returns the template-specific layout keyed by
`(brand, normalized filename stem)` when one exists (as a non-empty, hence
truthy, mapping); returns the brand default when only the default exists;
and fails with the layout-not-found `KeyError` naming the brand and the
computed key when neither exists. -/
theorem c1_layout_fallback {α : Type} (defaults : PyDict (PyDict α))
    (template_coords : List ((String × String) × PyDict α))
    (brand template_pdf_path : String) :
    (∀ cfg, List.lookup (brand, templateKeyOf template_pdf_path) template_coords
        = some cfg → cfg ≠ [] →
      get_cfg_for_template defaults template_coords brand template_pdf_path
        = Except.ok cfg)
  ∧ (∀ d, List.lookup (brand, templateKeyOf template_pdf_path) template_coords
        = none → List.lookup brand defaults = some d → d ≠ [] →
      get_cfg_for_template defaults template_coords brand template_pdf_path
        = Except.ok d)
  ∧ (List.lookup (brand, templateKeyOf template_pdf_path) template_coords = none →
      List.lookup brand defaults = none →
      get_cfg_for_template defaults template_coords brand template_pdf_path
        = Except.error
            (layoutNotFoundMsg brand (templateKeyOf template_pdf_path))) := by
  refine ⟨fun cfg htc hne => ?_, fun d htc hd hne => ?_, fun htc hd => ?_⟩
  · have hE : cfg.isEmpty = false := by
      cases cfg with
      | nil => exact absurd rfl hne
      | cons a as => rfl
    simp [get_cfg_for_template, htc, pyDictGate, hE]
  · have hE : d.isEmpty = false := by
      cases d with
      | nil => exact absurd rfl hne
      | cons a as => rfl
    simp [get_cfg_for_template, htc, hd, pyDictGate, hE]
  · simp [get_cfg_for_template, htc, hd, pyDictGate]

/-- C1 witness: a registry holding both a template-specific layout and a
brand default returns the template-specific one; with only the default it
returns the default; with neither it fails naming brand and key. -/
theorem c1_layout_fallback_witness :
    get_cfg_for_template [("iloom", [("x", 2)])]
      [(("iloom", "basic_m"), [("x", 1)])] "iloom" "templates/iloom/BASIC_M.pdf"
      = Except.ok [("x", (1 : Nat))]
  ∧ get_cfg_for_template [("iloom", [("x", (2 : Nat))])] []
      "iloom" "templates/iloom/BASIC_M.pdf" = Except.ok [("x", 2)]
  ∧ get_cfg_for_template ([] : PyDict (PyDict Nat)) [] "iloom"
      "templates/iloom/BASIC_M.pdf"
      = Except.error (layoutNotFoundMsg "iloom" "basic_m") :=
  ⟨(c1_layout_fallback _ _ _ _).1 [("x", 1)] (by decide) (by decide),
   (c1_layout_fallback _ _ _ _).2.1 [("x", 2)] (by decide) (by decide) (by decide),
   (c1_layout_fallback _ _ _ _).2.2 (by decide) (by decide)⟩

/-- C10: layout resolution tests truthiness, not mere presence: a
template-specific entry that is the empty mapping is skipped in favor of
the brand default, and an empty brand default falls through to the
layout-not-found error even though both keys are present. -/
theorem c10_layout_truthiness {α : Type} (defaults : PyDict (PyDict α))
    (template_coords : List ((String × String) × PyDict α))
    (brand template_pdf_path : String) :
    (∀ d, List.lookup (brand, templateKeyOf template_pdf_path) template_coords
        = some [] → List.lookup brand defaults = some d → d ≠ [] →
      get_cfg_for_template defaults template_coords brand template_pdf_path
        = Except.ok d)
  ∧ (List.lookup (brand, templateKeyOf template_pdf_path) template_coords
        = some [] → List.lookup brand defaults = some [] →
      get_cfg_for_template defaults template_coords brand template_pdf_path
        = Except.error
            (layoutNotFoundMsg brand (templateKeyOf template_pdf_path)))
  ∧ (List.lookup (brand, templateKeyOf template_pdf_path) template_coords
        = none → List.lookup brand defaults = some [] →
      get_cfg_for_template defaults template_coords brand template_pdf_path
        = Except.error
            (layoutNotFoundMsg brand (templateKeyOf template_pdf_path))) := by
  refine ⟨fun d htc hd hne => ?_, fun htc hd => ?_, fun htc hd => ?_⟩
  · have hE : d.isEmpty = false := by
      cases d with
      | nil => exact absurd rfl hne
      | cons a as => rfl
    simp [get_cfg_for_template, htc, hd, pyDictGate, hE]
  · simp [get_cfg_for_template, htc, hd, pyDictGate]
  · simp [get_cfg_for_template, htc, hd, pyDictGate]

/-- C10 witness: an empty template-specific mapping is skipped in favor of
the brand default, and an empty default yields the error though the brand
key is present in `defaults`. -/
theorem c10_layout_truthiness_witness :
    get_cfg_for_template [("iloom", [("x", (2 : Nat))])]
      [(("iloom", "basic_m"), [])] "iloom" "templates/iloom/BASIC_M.pdf"
      = Except.ok [("x", 2)]
  ∧ get_cfg_for_template [("iloom", ([] : PyDict Nat))]
      [(("iloom", "basic_m"), [])] "iloom" "templates/iloom/BASIC_M.pdf"
      = Except.error (layoutNotFoundMsg "iloom" "basic_m") :=
  ⟨(c10_layout_truthiness _ _ _ _).1 [("x", 2)] (by decide) (by decide) (by decide),
   (c10_layout_truthiness _ _ _ _).2.1 (by decide) (by decide)⟩

/- ======================= Overlay lemmas ======================= -/

theorem coverDrawOp_isCover {r : ℚ × ℚ × ℚ × ℚ} {op : DrawOp}
    (h : coverDrawOp r = some op) : isCoverOp op = true := by
  unfold coverDrawOp at h
  split at h
  · exact Option.noConfusion h
  · cases h
    rfl

theorem isImageOp_eq_false_of_isCoverOp {op : DrawOp}
    (h : isCoverOp op = true) : isImageOp op = false := by
  cases op <;> simp_all [isCoverOp, isImageOp]

theorem textDrawOp_not_image {cfg : Cfg} {size : Int} {k v : String}
    {op : DrawOp} (h : textDrawOp cfg size k v = some op) :
    isImageOp op = false := by
  unfold textDrawOp at h
  split at h
  · exact Option.noConfusion h
  · split at h
    · exact Option.noConfusion h
    · split at h
      · exact Option.noConfusion h
      · cases h
        rfl

theorem iconTextOp_not_image {cfg : Cfg} {msg k : String} {op : DrawOp}
    (h : iconTextOp cfg msg k = some op) : isImageOp op = false := by
  unfold iconTextOp at h
  split at h
  · exact Option.noConfusion h
  · split at h
    · exact Option.noConfusion h
    · split at h
      · exact Option.noConfusion h
      · cases h
        rfl

theorem textDrawOp_zero {cfg : Cfg} {size : Int} {k v : String}
    (h : List.lookup k cfg.pos = some (0, 0)) :
    textDrawOp cfg size k v = none := by
  simp only [textDrawOp, h]
  split
  · rfl
  · rfl

theorem iconImageOp_zero {cfg : Cfg} {ip k : String}
    (h : List.lookup k cfg.icon_pos = some (0, 0, 0, 0)) :
    iconImageOp cfg ip k = none := by
  simp only [iconImageOp, h]
  split
  · rfl
  · rfl

theorem iconTextOp_zero {cfg : Cfg} {msg k : String}
    (h : List.lookup k cfg.icon_pos = some (0, 0, 0, 0)) :
    iconTextOp cfg msg k = none := by
  simp only [iconTextOp, h]
  split
  · rfl
  · rfl

theorem textDrawOp_hidden {cfg : Cfg} {size : Int} {k v : String}
    (h : (List.lookup k cfg.hide).getD false = true) :
    textDrawOp cfg size k v = none := by
  cases hl : List.lookup k cfg.pos with
  | none => simp [textDrawOp, hl]
  | some xy => simp [textDrawOp, hl, h]

theorem iconImageOp_hidden {cfg : Cfg} {ip k : String}
    (h : (List.lookup k cfg.icon_hide).getD false = true) :
    iconImageOp cfg ip k = none := by
  cases hl : List.lookup k cfg.icon_pos with
  | none => simp [iconImageOp, hl]
  | some r => simp [iconImageOp, hl, h]

theorem iconTextOp_hidden {cfg : Cfg} {msg k : String}
    (h : (List.lookup k cfg.icon_hide).getD false = true) :
    iconTextOp cfg msg k = none := by
  cases hl : List.lookup k cfg.icon_pos with
  | none => simp [iconTextOp, hl]
  | some r => simp [iconTextOp, hl, h]

theorem make_overlay_all_cover (cfg : Cfg) (row : Row) (iconE : String → Bool)
    (icon_dir : String)
    (htext : ∀ size k v, textDrawOp cfg size k v = none)
    (himg : ∀ ip k, iconImageOp cfg ip k = none)
    (htxt : ∀ msg k, iconTextOp cfg msg k = none) :
    ∀ op ∈ make_overlay_pdf cfg row iconE icon_dir, isCoverOp op = true := by
  intro op hop
  simp only [make_overlay_pdf, List.mem_append] at hop
  rcases hop with ((h | h) | h) | h
  · rcases List.mem_filterMap.mp h with ⟨r, _, heq⟩
    exact coverDrawOp_isCover heq
  · rcases List.mem_filterMap.mp h with ⟨kv, _, heq⟩
    rw [htext] at heq
    exact Option.noConfusion heq
  · rcases List.mem_filterMap.mp h with ⟨kv, _, heq⟩
    rw [htext] at heq
    exact Option.noConfusion heq
  · by_cases hic : iconE (get_icon_path (pyStrip row.origin_country) icon_dir)
        = true
    · rw [if_pos hic] at h
      rcases List.mem_filterMap.mp h with ⟨k, _, heq⟩
      rw [himg] at heq
      exact Option.noConfusion heq
    · rw [if_neg hic] at h
      rcases List.mem_filterMap.mp h with ⟨k, _, heq⟩
      rw [htxt] at heq
      exact Option.noConfusion heq

/- ======================= C2 ======================= -/

/-- C2: a `pos` entry equal to `(0,0)` or an `icon_pos` entry equal to
`(0,0,0,0)` never produces a draw call, whatever the hide and rotate flags
are: the per-key draw of such an entry is `none`, and when every placed
entry is zero the whole overlay contains nothing but cover rectangles. -/
theorem c2_zero_suppression (cfg : Cfg) (row : Row) (iconE : String → Bool)
    (icon_dir k v ip msg : String) (size : Int) :
    (List.lookup k cfg.pos = some (0, 0) → textDrawOp cfg size k v = none)
  ∧ (List.lookup k cfg.icon_pos = some (0, 0, 0, 0) →
      iconImageOp cfg ip k = none ∧ iconTextOp cfg msg k = none)
  ∧ ((∀ p xy, List.lookup p cfg.pos = some xy → xy = ((0 : ℚ), (0 : ℚ))) →
     (∀ p r, List.lookup p cfg.icon_pos = some r →
        r = ((0 : ℚ), (0 : ℚ), (0 : ℚ), (0 : ℚ))) →
      ∀ op ∈ make_overlay_pdf cfg row iconE icon_dir, isCoverOp op = true) := by
  refine ⟨fun h => textDrawOp_zero h,
    fun h => ⟨iconImageOp_zero h, iconTextOp_zero h⟩, fun hpos hicon => ?_⟩
  apply make_overlay_all_cover
  · intro size' k' v'
    cases hl : List.lookup k' cfg.pos with
    | none => simp [textDrawOp, hl]
    | some xy =>
      have := hpos k' xy hl
      subst this
      exact textDrawOp_zero hl
  · intro ip' k'
    cases hl : List.lookup k' cfg.icon_pos with
    | none => simp [iconImageOp, hl]
    | some r =>
      have := hicon k' r hl
      subst this
      exact iconImageOp_zero hl
  · intro msg' k'
    cases hl : List.lookup k' cfg.icon_pos with
    | none => simp [iconTextOp, hl]
    | some r =>
      have := hicon k' r hl
      subst this
      exact iconTextOp_zero hl

/-- Layout for the C2 witness: a zero SKU point and a zero origin
rectangle, neither hidden nor rotated. -/
def c2cfg : Cfg :=
  ⟨[], [("L_item_code", (0, 0))], [("origin", (0, 0, 0, 0))], [], [], [], [],
   26, 12⟩

/-- Row for the C2 witness. -/
def c2row : Row :=
  ⟨"iloom", "BASIC", "M", "IL-001", "테스트", "Test", "KR"⟩

/-- C2 witness: the zero point and zero rectangle of `c2cfg` produce no
draw call. -/
theorem c2_zero_suppression_witness :
    textDrawOp c2cfg 26 "L_item_code" "IL-001" = none
  ∧ iconImageOp c2cfg "icons/icon_KR.png" "origin" = none
  ∧ iconTextOp c2cfg "MADE IN KR" "origin" = none :=
  ⟨(c2_zero_suppression c2cfg c2row (fun _ => false) "icons" "L_item_code"
      "IL-001" "icons/icon_KR.png" "MADE IN KR" 26).1 (by decide),
   ((c2_zero_suppression c2cfg c2row (fun _ => false) "icons" "origin"
      "IL-001" "icons/icon_KR.png" "MADE IN KR" 26).2.1 (by decide)).1,
   ((c2_zero_suppression c2cfg c2row (fun _ => false) "icons" "origin"
      "IL-001" "icons/icon_KR.png" "MADE IN KR" 26).2.1 (by decide)).2⟩

/- ======================= C6 ======================= -/

/-- C6: hide precedence — a key present in `pos` with a non-zero point but
a set hide flag is not drawn, an `icon_pos` key with `icon_hide` set
produces neither an icon nor fallback text, and a layout whose flags hide
everything yields an overlay of cover rectangles only. -/
theorem c6_hide_precedence (cfg : Cfg) (row : Row) (iconE : String → Bool)
    (icon_dir k v ip msg : String) (size : Int) :
    (∀ xy, List.lookup k cfg.pos = some xy → is_zero_xy xy = false →
       (List.lookup k cfg.hide).getD false = true →
       textDrawOp cfg size k v = none)
  ∧ (∀ r, List.lookup k cfg.icon_pos = some r → is_zero_rect r = false →
       (List.lookup k cfg.icon_hide).getD false = true →
       iconImageOp cfg ip k = none ∧ iconTextOp cfg msg k = none)
  ∧ ((∀ p, (List.lookup p cfg.hide).getD false = true) →
     (∀ p, (List.lookup p cfg.icon_hide).getD false = true) →
      ∀ op ∈ make_overlay_pdf cfg row iconE icon_dir, isCoverOp op = true) := by
  refine ⟨fun xy _ _ hh => textDrawOp_hidden hh,
    fun r _ _ hh => ⟨iconImageOp_hidden hh, iconTextOp_hidden hh⟩,
    fun hh hih => ?_⟩
  apply make_overlay_all_cover
  · intro size' k' v'
    exact textDrawOp_hidden (hh k')
  · intro ip' k'
    exact iconImageOp_hidden (hih k')
  · intro msg' k'
    exact iconTextOp_hidden (hih k')

/-- Layout for the C6 witness: non-zero placements that are flagged
hidden. -/
def c6cfg : Cfg :=
  ⟨[], [("L_item_code", (3, 4))], [("origin", (1, 2, 3, 4))], [], [],
   [("L_item_code", true)], [("origin", true)], 26, 12⟩

/-- Row for the C6 witness. -/
def c6row : Row :=
  ⟨"iloom", "BASIC", "M", "IL-001", "테스트", "Test", "KR"⟩

/-- C6 witness: the hidden, non-zero entries of `c6cfg` produce no draw
call. -/
theorem c6_hide_precedence_witness :
    textDrawOp c6cfg 26 "L_item_code" "IL-001" = none
  ∧ iconImageOp c6cfg "icons/icon_KR.png" "origin" = none
  ∧ iconTextOp c6cfg "MADE IN KR" "origin" = none :=
  ⟨(c6_hide_precedence c6cfg c6row (fun _ => false) "icons" "L_item_code"
      "IL-001" "icons/icon_KR.png" "MADE IN KR" 26).1 (3, 4) (by decide)
      (by decide) (by decide),
   ((c6_hide_precedence c6cfg c6row (fun _ => false) "icons" "origin"
      "IL-001" "icons/icon_KR.png" "MADE IN KR" 26).2.1 (1, 2, 3, 4)
      (by decide) (by decide) (by decide)).1,
   ((c6_hide_precedence c6cfg c6row (fun _ => false) "icons" "origin"
      "IL-001" "icons/icon_KR.png" "MADE IN KR" 26).2.1 (1, 2, 3, 4)
      (by decide) (by decide) (by decide)).2⟩

/- ======================= C3 ======================= -/

/-- Layout for the C3 counterexample: a single placed, visible origin
rectangle. -/
def c3cfg : Cfg :=
  ⟨[], [], [("origin", (5, 5, 10, 10))], [], [], [], [], 26, 12⟩

/-- Row for the C3 counterexample: the origin country is the lower-case
code "cn"; no icon asset exists. -/
def c3row : Row :=
  ⟨"iloom", "BASIC", "M", "IL-001", "테스트", "Test", "cn"⟩

/-- C3 counterexample: for `origin_country = "cn"` with no icon asset, the
claim demands a "MADE IN CN" mark (normalized, upper-cased code) at the
placed, visible `origin` rectangle; the overlay `make_overlay_pdf`
produces contains no "MADE IN CN" text at all — the single fallback mark
it draws reads "MADE IN cn", with the original casing. -/
theorem c3_counterexample :
    List.lookup "origin" c3cfg.icon_pos = some (5, 5, 10, 10)
  ∧ (List.lookup "origin" c3cfg.icon_hide).getD false = false
  ∧ ((make_overlay_pdf c3cfg c3row (fun _ => false) "icons").all
       (fun op => textContent op != some "MADE IN CN")) = true
  ∧ ((make_overlay_pdf c3cfg c3row (fun _ => false) "icons").countP
       (fun op => textContent op == some "MADE IN cn")) = 1 := by
  refine ⟨by decide, by decide, by decide, by decide⟩

/-- C3 (amended): when the icon asset for the stripped origin string is
absent, the overlay contains — instead of any image draw — a text mark
`"MADE IN " ++ origin` with the *stripped origin string as written in the
row* (not the upper-cased code, which is used only for the icon filename),
at font size 10, positioned at `(x, y + h + 2)` just above each
`icon_pos` rectangle among `L_origin`/`R_origin`/`origin` that is present,
not hidden and not the zero rectangle, rotated per `icon_rotate_180`. -/
theorem c3_origin_text_fallback (cfg : Cfg) (row : Row)
    (iconE : String → Bool) (icon_dir k : String) (x y w h : ℚ)
    (hic : iconE (get_icon_path (pyStrip row.origin_country) icon_dir) = false)
    (hk : k ∈ originKeys)
    (hpos : List.lookup k cfg.icon_pos = some (x, y, w, h))
    (hhide : (List.lookup k cfg.icon_hide).getD false = false)
    (hz : is_zero_rect (x, y, w, h) = false) :
    DrawOp.text x (y + h + 2) ("MADE IN " ++ pyStrip row.origin_country) 10
      ((List.lookup k cfg.icon_rotate_180).getD false)
      ∈ make_overlay_pdf cfg row iconE icon_dir
  ∧ ∀ op ∈ make_overlay_pdf cfg row iconE icon_dir, isImageOp op = false := by
  constructor
  · simp only [make_overlay_pdf, List.mem_append]
    refine Or.inr ?_
    rw [if_neg (by simp [hic])]
    refine List.mem_filterMap.mpr ⟨k, hk, ?_⟩
    simp [iconTextOp, hpos, hhide, hz]
  · intro op hop
    simp only [make_overlay_pdf, List.mem_append] at hop
    rcases hop with ((hm | hm) | hm) | hm
    · rcases List.mem_filterMap.mp hm with ⟨r, _, heq⟩
      exact isImageOp_eq_false_of_isCoverOp (coverDrawOp_isCover heq)
    · rcases List.mem_filterMap.mp hm with ⟨kv, _, heq⟩
      exact textDrawOp_not_image heq
    · rcases List.mem_filterMap.mp hm with ⟨kv, _, heq⟩
      exact textDrawOp_not_image heq
    · rw [if_neg (by simp [hic])] at hm
      rcases List.mem_filterMap.mp hm with ⟨k', _, heq⟩
      exact iconTextOp_not_image heq

/-- C3 witness: applying the amended fallback theorem at `c3cfg`/`c3row`
puts the "MADE IN cn" mark just above the configured rectangle. -/
theorem c3_origin_text_fallback_witness :
    DrawOp.text 5 (5 + 10 + 2) ("MADE IN " ++ pyStrip c3row.origin_country) 10
      ((List.lookup "origin" c3cfg.icon_rotate_180).getD false)
      ∈ make_overlay_pdf c3cfg c3row (fun _ => false) "icons" :=
  (c3_origin_text_fallback c3cfg c3row (fun _ => false) "icons" "origin"
    5 5 10 10 rfl (by decide) (by decide) (by decide) (by decide)).1

/- ======================= C5 ======================= -/

/-- C5: template resolution is case- and whitespace-insensitive — when the
listing holds a file whose normalized stem equals
`norm (box_type ++ "_" ++ box_group)`, resolution succeeds with the path
of such a (first matching) file; only files with a case-insensitive `.pdf`
extension are considered; and in particular "Basic_M.pdf" resolves both
for `("basic", " M ")` and for `("BASIC", "m")`. -/
theorem c5_find_template_insensitive (listing : List String)
    (root brand box_type box_group : String) :
    (listing.any (isTemplateMatch box_type box_group) = true →
      ∃ fn, fn ∈ listing ∧ isTemplateMatch box_type box_group fn = true ∧
        find_template_pdf true listing root brand box_type box_group
          = Except.ok (root ++ "/" ++ brand ++ "/" ++ fn))
  ∧ ((∀ fn ∈ listing, isPdfName fn = false) →
      find_template_pdf true listing root brand box_type box_group
        = Except.error ("템플릿 없음: " ++ brand ++ "/" ++ box_type ++ "_" ++
            box_group ++ ".pdf"))
  ∧ find_template_pdf true ["Basic_M.pdf"] root brand "basic" " M "
      = Except.ok (root ++ "/" ++ brand ++ "/" ++ "Basic_M.pdf")
  ∧ find_template_pdf true ["Basic_M.pdf"] root brand "BASIC" "m"
      = Except.ok (root ++ "/" ++ brand ++ "/" ++ "Basic_M.pdf") := by
  refine ⟨fun hany => ?_, fun hno => ?_, ?_, ?_⟩
  · cases hf : listing.find? (isTemplateMatch box_type box_group) with
    | none =>
      exfalso
      rcases List.any_eq_true.mp hany with ⟨fn, hfn, hmatch⟩
      exact absurd hmatch (by simpa using List.find?_eq_none.mp hf fn hfn)
    | some fn =>
      refine ⟨fn, List.mem_of_find?_eq_some hf, List.find?_some hf, ?_⟩
      simp [find_template_pdf, hf]
  · have hf : listing.find? (isTemplateMatch box_type box_group) = none :=
      List.find?_eq_none.mpr (fun fn hfn => by
        simp [isTemplateMatch, hno fn hfn])
    simp [find_template_pdf, hf]
  · have hfind : List.find? (isTemplateMatch "basic" " M ") ["Basic_M.pdf"]
        = some "Basic_M.pdf" := by decide
    simp [find_template_pdf, hfind]
  · have hfind : List.find? (isTemplateMatch "BASIC" "m") ["Basic_M.pdf"]
        = some "Basic_M.pdf" := by decide
    simp [find_template_pdf, hfind]

/-- C5 witness: "Basic_M.pdf" resolves for `("basic", " M ")` (third
conjunct of the theorem at concrete root and brand), and a listing holding
only a non-PDF file fails (second conjunct, hypothesis discharged). -/
theorem c5_find_template_insensitive_witness :
    find_template_pdf true ["Basic_M.pdf"] "templates" "iloom" "basic" " M "
      = Except.ok "templates/iloom/Basic_M.pdf"
  ∧ find_template_pdf true ["Basic_M.txt"] "templates" "iloom" "basic" " M "
      = Except.error "템플릿 없음: iloom/basic_ M .pdf" :=
  ⟨(c5_find_template_insensitive ["Basic_M.pdf"] "templates" "iloom"
      "basic" " M ").2.2.1,
   (c5_find_template_insensitive ["Basic_M.txt"] "templates" "iloom"
      "basic" " M ").2.1 (by decide)⟩

/- ======================= C8 ======================= -/

/-- C8: when no template file in the brand directory matches the row's
`(box_type, box_group)`, `render_row` fails with the template-not-found
error naming the brand, box_type, and box_group, and creates no output
file (the exception propagates from `find_template_pdf` before anything is
written). -/
theorem c8_template_not_found {α : Type} (bde : String → Bool)
    (listing : String → List String) (defaults : PyDict (PyDict α))
    (template_coords : List ((String × String) × PyDict α)) (row : Row)
    (root out : String)
    (hdir : bde (pyStrip row.brand) = true)
    (hnone : ∀ fn ∈ listing (pyStrip row.brand),
       isTemplateMatch (pyStrip row.box_type) (pyStrip row.box_group) fn
         = false) :
    render_row bde listing defaults template_coords row root out
      = Except.error ("템플릿 없음: " ++ pyStrip row.brand ++ "/" ++
          pyStrip row.box_type ++ "_" ++ pyStrip row.box_group ++ ".pdf")
  ∧ filesCreated (render_row bde listing defaults template_coords row root out)
      = [] := by
  have hf : (listing (pyStrip row.brand)).find?
      (isTemplateMatch (pyStrip row.box_type) (pyStrip row.box_group))
      = none :=
    List.find?_eq_none.mpr (fun fn hfn => by simp [hnone fn hfn])
  have hft : find_template_pdf (bde (pyStrip row.brand))
      (listing (pyStrip row.brand)) root (pyStrip row.brand)
      (pyStrip row.box_type) (pyStrip row.box_group)
      = Except.error ("템플릿 없음: " ++ pyStrip row.brand ++ "/" ++
          pyStrip row.box_type ++ "_" ++ pyStrip row.box_group ++ ".pdf") := by
    simp [find_template_pdf, hdir, hf]
  constructor
  · simp [render_row, hft]
  · simp [render_row, hft, filesCreated]

/-- Row for the C8 witness: box_group "ZZZ" matches no template file; the
brand field carries surrounding whitespace that `render_row` strips. -/
def c8row : Row :=
  ⟨" iloom ", "BASIC", "ZZZ", "IL-001", "테스트", "Test", "KR"⟩

/-- C8 witness: against a brand directory listing only "BASIC_M.pdf", the
row with box_group "ZZZ" fails naming "iloom/BASIC_ZZZ.pdf" and creates no
file. -/
theorem c8_template_not_found_witness :
    render_row (fun _ => true) (fun _ => ["BASIC_M.pdf"])
      ([] : PyDict (PyDict Nat)) [] c8row "templates" "output_pdf"
      = Except.error "템플릿 없음: iloom/BASIC_ZZZ.pdf"
  ∧ filesCreated (render_row (fun _ => true) (fun _ => ["BASIC_M.pdf"])
      ([] : PyDict (PyDict Nat)) [] c8row "templates" "output_pdf") = [] :=
  c8_template_not_found (fun _ => true) (fun _ => ["BASIC_M.pdf"]) [] []
    c8row "templates" "output_pdf" rfl (by decide)

/- ======================= Batch lemmas ======================= -/

theorem renderLoop_zero (f : Row → Except String String) (rows : List Row) :
    ∀ count : Nat, renderLoop f 0 rows count = mapME f rows := by
  induction rows with
  | nil => intro count; rfl
  | cons r rs ih =>
    intro count
    cases hf : f r with
    | error e => simp only [renderLoop, mapME, hf]
    | ok p =>
      simp only [renderLoop, mapME, hf]
      rw [ih (count + 1), if_neg (by simp)]

theorem renderLoop_pos (f : Row → Except String String) (limit : Nat)
    (hl : limit ≠ 0) :
    ∀ (rows : List Row) (count : Nat), count < limit →
      renderLoop f limit rows count = mapME f (rows.take (limit - count)) := by
  intro rows
  induction rows with
  | nil =>
    intro count _
    rw [List.take_nil]
    rfl
  | cons r rs ih =>
    intro count hc
    have hk : limit - count = (limit - count - 1) + 1 := by omega
    rw [hk, List.take_succ_cons]
    cases hf : f r with
    | error e => simp only [renderLoop, mapME, hf]
    | ok p =>
      simp only [renderLoop, mapME, hf]
      by_cases hge : count + 1 ≥ limit
      · rw [if_pos ⟨hl, hge⟩]
        have h0 : limit - count - 1 = 0 := by omega
        rw [h0, List.take_zero]
        rfl
      · rw [if_neg (fun hcontra => hge hcontra.2)]
        rw [ih (count + 1) (by omega)]
        have hs : limit - (count + 1) = limit - count - 1 := by omega
        rw [hs]

theorem mapME_length (f : Row → Except String String) :
    ∀ (rows : List Row) (outs : List String),
      mapME f rows = Except.ok outs → outs.length = rows.length := by
  intro rows
  induction rows with
  | nil =>
    intro outs h
    cases h
    rfl
  | cons r rs ih =>
    intro outs h
    simp only [mapME] at h
    cases hf : f r with
    | error e =>
      rw [hf] at h
      exact Except.noConfusion h
    | ok p =>
      rw [hf] at h
      cases hm : mapME f rs with
      | error e =>
        rw [hm] at h
        exact Except.noConfusion h
      | ok l =>
        rw [hm] at h
        cases h
        simp [ih l hm]

/- ======================= C4 ======================= -/

/-- C4: with all required columns present, `run_render` renders the rows
in source order with fail-fast semantics — it equals sequential rendering
(`mapME`) of the whole row list when `limit = 0` and of exactly the first
`limit` rows when `limit > 0` (later rows are not processed, and a row
error aborts the whole batch with no partial result) — and a successful
batch returns one path per processed row: `rows.length` outputs for
`limit = 0`, `min limit rows.length` otherwise. -/
theorem c4_run_render_batch {α : Type} (bde : String → Bool)
    (listing : String → List String) (defaults : PyDict (PyDict α))
    (template_coords : List ((String × String) × PyDict α)) (df : DataFrame)
    (limit : Nat) (root out : String)
    (hcols : ∀ c ∈ requiredCols, df.columns.contains c = true) :
    run_render bde listing defaults template_coords df limit root out
      = mapME (fun r => Except.map RowOut.out_path
          (render_row bde listing defaults template_coords r root out))
          (if limit = 0 then df.rows else df.rows.take limit)
  ∧ ∀ outs, run_render bde listing defaults template_coords df limit root out
      = Except.ok outs →
      outs.length
        = if limit = 0 then df.rows.length else min limit df.rows.length := by
  have hmiss : requiredCols.filter (fun c => !df.columns.contains c) = [] :=
    List.filter_eq_nil_iff.mpr (fun c hc => by rw [hcols c hc]; simp)
  have hrun : run_render bde listing defaults template_coords df limit root out
      = renderLoop (fun r => Except.map RowOut.out_path
          (render_row bde listing defaults template_coords r root out))
          limit df.rows 0 := by
    simp only [run_render]
    rw [if_neg (fun hcon => hcon hmiss)]
  have heq : run_render bde listing defaults template_coords df limit root out
      = mapME (fun r => Except.map RowOut.out_path
          (render_row bde listing defaults template_coords r root out))
          (if limit = 0 then df.rows else df.rows.take limit) := by
    rw [hrun]
    by_cases h0 : limit = 0
    · subst h0
      rw [if_pos rfl]
      exact renderLoop_zero _ _ 0
    · rw [if_neg h0]
      have h := renderLoop_pos (fun r => Except.map RowOut.out_path
          (render_row bde listing defaults template_coords r root out))
          limit h0 df.rows 0 (by omega)
      simpa using h
  refine ⟨heq, fun outs houts => ?_⟩
  rw [heq] at houts
  have hlen := mapME_length _ _ outs houts
  rw [hlen]
  by_cases h0 : limit = 0
  · rw [if_pos h0, if_pos h0]
  · rw [if_neg h0, if_neg h0, List.length_take]

/-- Rows and dataset for the C4 witness. -/
def c4df : DataFrame :=
  ⟨requiredCols,
   [⟨"iloom", "BASIC", "M", "IL-001", "테스트", "Test", "KR"⟩,
    ⟨"iloom", "BASIC", "M", "IL-002", "테스트", "Test", "KR"⟩]⟩

/-- C4 witness: with two rows and `limit = 1`, the batch renders exactly
the first row. -/
theorem c4_run_render_batch_witness :
    run_render (fun _ => true) (fun _ => ["BASIC_M.pdf"])
      [("iloom", [("x", (1 : Nat))])] [] c4df 1 "templates" "output_pdf"
      = Except.ok ["output_pdf/iloom_BASIC_M_IL-001.pdf"] := by
  have h := (c4_run_render_batch (fun _ => true) (fun _ => ["BASIC_M.pdf"])
    [("iloom", [("x", (1 : Nat))])] [] c4df 1 "templates" "output_pdf"
    (by decide)).1
  rw [h]
  rfl

/- ======================= C9 ======================= -/

/-- C9: a dataset missing at least one required column makes `run_render`
fail with the missing-column `KeyError` before any rendering begins — the
result is that error, and it does not depend on the filesystem or the
coordinate registry at all (no row is rendered). -/
theorem c9_schema_error {α : Type} (bde : String → Bool)
    (listing : String → List String) (defaults : PyDict (PyDict α))
    (template_coords : List ((String × String) × PyDict α)) (df : DataFrame)
    (limit : Nat) (root out : String)
    (h : ∃ c ∈ requiredCols, df.columns.contains c = false) :
    run_render bde listing defaults template_coords df limit root out
      = Except.error ("엑셀에 필수 컬럼이 없음: " ++ String.intercalate ", "
          (requiredCols.filter (fun c => !df.columns.contains c)))
  ∧ ∀ (bde₂ : String → Bool) (listing₂ : String → List String)
      (defaults₂ : PyDict (PyDict α))
      (template_coords₂ : List ((String × String) × PyDict α)),
      run_render bde listing defaults template_coords df limit root out
        = run_render bde₂ listing₂ defaults₂ template_coords₂ df limit
            root out := by
  have hne : requiredCols.filter (fun c => !df.columns.contains c) ≠ [] := by
    rcases h with ⟨c, hc, hfalse⟩
    exact List.ne_nil_of_mem (List.mem_filter.mpr ⟨hc, by rw [hfalse]; rfl⟩)
  have herr : ∀ (bde' : String → Bool) (listing' : String → List String)
      (defaults' : PyDict (PyDict α))
      (template_coords' : List ((String × String) × PyDict α)),
      run_render bde' listing' defaults' template_coords' df limit root out
        = Except.error ("엑셀에 필수 컬럼이 없음: " ++ String.intercalate ", "
            (requiredCols.filter (fun c => !df.columns.contains c))) := by
    intro bde' listing' defaults' template_coords'
    simp only [run_render]
    rw [if_pos hne]
  exact ⟨herr bde listing defaults template_coords,
    fun bde₂ listing₂ defaults₂ template_coords₂ => by
      rw [herr bde listing defaults template_coords,
          herr bde₂ listing₂ defaults₂ template_coords₂]⟩

/-- C9 witness: a dataset exposing only a `brand` column fails with the
schema error listing the six missing columns, before any rendering. -/
theorem c9_schema_error_witness :
    run_render (fun _ => true) (fun _ => ["BASIC_M.pdf"])
      ([] : PyDict (PyDict Nat)) [] ⟨["brand"], []⟩ 0 "templates" "output_pdf"
      = Except.error ("엑셀에 필수 컬럼이 없음: box_type, box_group, " ++
          "item_code, product_name_ko, product_name_en, origin_country") :=
  (c9_schema_error (fun _ => true) (fun _ => ["BASIC_M.pdf"]) [] []
    ⟨["brand"], []⟩ 0 "templates" "output_pdf"
    ⟨"box_type", by decide, by decide⟩).1
